import Mathlib

/-!
Verification of the Hike Warehouse Manager core (src/app.py).

Shallow embedding of the box-expansion, label-composition, scan-matching,
print-dispatch and persistence logic of `src/app.py`, together with proofs
and refutations of the specification claims.

Modelling conventions:
* pandas/python floats are modelled as rationals (`ℚ`); `int(x)` is
  truncation toward zero (`pyInt`).
* Python string operations that the code uses (`strip`, `replace`,
  ordering used by `sort_values`) are modelled by executable functions over
  `String`/`List Char` with Python semantics (code-point comparison).
* `pd.DataFrame.sort_values(by='SKU Id')` is modelled as a stable
  insertion sort by the SKU-id key (pandas' default quicksort leaves the
  order of tied keys unspecified; every property proved below is
  independent of the tie order).
* The win32 print transport is an opaque external collaborator, modelled
  by the three outcomes its call sites distinguish: the call succeeds,
  pywin32 is missing, or `ShellExecute` raises an exception.
-/

namespace HikeWarehouse

/-- Python `int(x)` on a (finite) float/number: truncation toward zero. -/
def pyInt (q : ℚ) : ℤ := if 0 ≤ q then ⌊q⌋ else ⌈q⌉

/-- Python list indexing `l[i]`, including negative-index wrap-around;
`none` models an `IndexError`.  `pypdf`'s `reader.pages` implements exactly
this protocol (`_VirtualList.__getitem__` adds `len` to a negative index). -/
def pyListGet (l : List α) (i : ℤ) : Option α :=
  if i < 0 then
    if (l.length : ℤ) + i < 0 then none else l.get? ((l.length : ℤ) + i).toNat
  else l.get? i.toNat

/-- Python `s.replace(".0", "")` (removes every occurrence, left to right),
used on the EAN column at src/app.py line 506. -/
def stripDot0 (s : String) : String := String.intercalate "" (s.splitOn ".0")

/-- Python `s.strip()`: drop leading and trailing whitespace. -/
def pyStrip (s : String) : String :=
  ⟨(((s.data.dropWhile Char.isWhitespace).reverse.dropWhile Char.isWhitespace).reverse)⟩

/-- Python `<` on strings: lexicographic comparison by code point. -/
def strLtList : List Char → List Char → Bool
  | [], [] => false
  | [], _ :: _ => true
  | _ :: _, [] => false
  | a :: as, b :: bs =>
      if a.toNat < b.toNat then true
      else if b.toNat < a.toNat then false
      else strLtList as bs

/-- Python `<=` on strings (the key order of `sort_values(by='SKU Id')`). -/
def pyStrLe (a b : String) : Bool := a == b || strLtList a.data b.data

/-- One reconciled line item of `pkg['data']` (a row of the merged
DataFrame built at src/app.py lines 470-474). -/
structure LineItem where
  skuId : String
  productName : String
  editableQty : ℚ
  ppcn : ℚ
  editableBoxes : ℚ
  fsn : String
  ean : String
deriving DecidableEq

/-- `df.sort_values(by='SKU Id')`, modelled as a stable sort by SKU id. -/
def sortBySku (items : List LineItem) : List LineItem :=
  List.insertionSort (fun a b => pyStrLe a.skuId b.skuId = true) items

/-- `int(row['Editable Boxes'])` clamped by `for _ in range(...)`:
the number of boxes a row emits (a negative count emits no boxes, and in
this rational model the `except: boxes = 0` branch is unreachable). -/
def boxCount (it : LineItem) : ℕ := (pyInt it.editableBoxes).toNat

/-- The common shape of the three box-expansion loops of src/app.py
(lines 151-164, 177-187 and 498-509): iterate rows in sorted order,
emit `boxCount` records per row built from the row and a running
1-based box counter. -/
def expandWith (f : LineItem → ℕ → β) : ℕ → List LineItem → List β
  | _, [] => []
  | c, it :: rest =>
      (List.range (boxCount it)).map (fun j => f it (c + j)) ++
        expandWith f (c + boxCount it) rest

/-- A row of the scan page's box table (src/app.py lines 502-508). -/
structure BoxRec where
  num : ℕ
  sku : String
  fsn : String
  ean : String
  qty : ℤ
deriving DecidableEq

/-- One entry of `box_data` built at src/app.py lines 502-508. -/
def scanBoxRow (it : LineItem) (n : ℕ) : BoxRec :=
  { num := n, sku := it.skuId, fsn := it.fsn, ean := stripDot0 it.ean
    qty := pyInt it.ppcn }

/-- `st.session_state['scan_box_data']`: the scan page's box table
(src/app.py lines 494-510). -/
def scan_box_data (items : List LineItem) : List BoxRec :=
  expandWith scanBoxRow 1 (sortBySku items)

/-- One entry of the label generator's `box_data`
(src/app.py lines 180-187). -/
structure LabelBox where
  num : ℕ
  total : ℤ
  sku : String
  qty : ℚ
  fsn : String
  cid : String
  ch : String
deriving DecidableEq

/-- `total_boxes = int(df['Editable Boxes'].sum())` (src/app.py line 174):
the `total` field stored on every label record. -/
def labelTotalField (items : List LineItem) : ℤ :=
  pyInt ((items.map (·.editableBoxes)).sum)

/-- One record appended at src/app.py lines 181-186. -/
def labelRow (cid ch : String) (total : ℤ) (it : LineItem) (n : ℕ) : LabelBox :=
  { num := n, total := total, sku := it.skuId, qty := it.ppcn, fsn := it.fsn
    cid := cid, ch := ch }

/-- The `box_data` list of `generate_merged_box_labels`
(src/app.py lines 173-187). -/
def label_box_data (cid ch : String) (items : List LineItem) : List LabelBox :=
  expandWith (labelRow cid ch (labelTotalField items)) 1 (sortBySku items)

/-- The PPCN written to each confirmation-CSV row (src/app.py line 154):
`int(float(row['PPCN'])) if float(row['PPCN']) > 0 else 1`. -/
def csvPpcn (it : LineItem) : ℤ := if 0 < it.ppcn then pyInt it.ppcn else 1

/-- A row of the confirmation CSV (src/app.py lines 159-163). -/
structure CsvRow where
  boxNumber : ℕ
  boxName : ℕ
  nominalValue : ℤ
  fsn : String
  quantity : ℤ
deriving DecidableEq

/-- One CSV row appended at src/app.py lines 159-163. -/
def csvRow (it : LineItem) (n : ℕ) : CsvRow :=
  { boxNumber := n, boxName := n, nominalValue := 350 * csvPpcn it
    fsn := it.fsn, quantity := csvPpcn it }

/-- The row list of `generate_confirm_consignment_csv`
(src/app.py lines 146-167).  In this rational model the row-level
`except: num_boxes=0; ppcn=1; fsn=''` branch is unreachable, so every
row emits `boxCount` CSV rows. -/
def confirm_consignment_csv (items : List LineItem) : List CsvRow :=
  expandWith csvRow 1 (sortBySku items)

/-- `t_box` of `generate_consignment_data_pdf` (src/app.py lines 270-274):
the sum of `int(row['Editable Boxes'])` over the sorted rows. -/
def pdfTotalBoxes (items : List LineItem) : ℤ :=
  ((sortBySku items).map (fun it => pyInt it.editableBoxes)).sum

/-- The three outcomes of the external print-transport call that
`send_pdf_to_printer` (src/app.py lines 44-53) distinguishes: pywin32 is
missing, `ShellExecute` succeeds, or `ShellExecute` raises. -/
inductive Transport where
  | noWin32 : Transport
  | ok : Transport
  | exn (msg : String) : Transport
deriving DecidableEq

/-- The (inconsistent) return values of `send_pdf_to_printer`: a bare
bool (`return False` / `return True`) or a `(False, str(e))` tuple from
the `except` branch. -/
inductive SendRet where
  | retBool (b : Bool) : SendRet
  | retPair (b : Bool) (msg : String) : SendRet
deriving DecidableEq

/-- `send_pdf_to_printer` (src/app.py lines 44-53). -/
def send_pdf_to_printer : Transport → SendRet
  | .noWin32 => .retBool false
  | .ok => .retBool true
  | .exn m => .retPair false m

/-- The page that `extract_and_print_box` (src/app.py lines 55-68) selects
and writes to the temporary single-page PDF: the `box_index >= len(pages)`
guard followed by Python indexing `reader.pages[box_index]`; `none` models
"no page written" (guard hit, or IndexError caught by the outer `except`). -/
def extract_page (pages : List α) (box_index : ℤ) : Option α :=
  if (pages.length : ℤ) ≤ box_index then none
  else pyListGet pages box_index

/-- `extract_and_print_box` (src/app.py lines 55-86): its `(bool, str)`
result.  Note the faithful `if success is False` test at line 83: only the
bare-bool `False` return of `send_pdf_to_printer` is recognised as a
failure, the `(False, msg)` tuple is not. -/
def extract_and_print_box (pages : List α) (box_index : ℤ) (t : Transport) :
    Bool × String :=
  if (pages.length : ℤ) ≤ box_index then (false, "Box Index out of range")
  else
    match pyListGet pages box_index with
    | none => (false, "list index out of range")
    | some _ =>
        match send_pdf_to_printer t with
        | .retBool false => (false, "Unknown Error")
        | _ => (true, "Sent to Printer")

/-- Result of the scan-matching logic of `process_scan`
(src/app.py lines 521-537). -/
inductive ResolveResult where
  | noMatch : ResolveResult
  | alreadyPrinted : ResolveResult
  | box (n : ℕ) : ResolveResult
deriving DecidableEq

/-- The match condition of src/app.py lines 521-525: the scan equals the
row's SKU, FSN or EAN. -/
def rowMatches (scan : String) (b : BoxRec) : Bool :=
  b.sku == scan || b.fsn == scan || b.ean == scan

/-- `~matches['Box No'].isin(printed_set)` (src/app.py line 532). -/
def notPrinted (printed : List ℕ) (b : BoxRec) : Bool := decide (b.num ∉ printed)

/-- The scan matcher of `process_scan` (src/app.py lines 521-537):
filter the box table by the scanned token (`matches`), report no-match if
it is empty, filter out already-printed box numbers (`valid_boxes`),
report already-printed if nothing remains, otherwise pick the first
remaining row (`valid_boxes.iloc[0]['Box No']`, i.e. the head). -/
def resolve (scan : String) (boxes : List BoxRec) (printed : List ℕ) :
    ResolveResult :=
  if (boxes.filter (rowMatches scan)).isEmpty then .noMatch
  else
    match ((boxes.filter (rowMatches scan)).filter (notPrinted printed)).head? with
    | none => .alreadyPrinted
    | some b => .box b.num

/-- The pieces of `st.session_state` / `pkg` that the scan page mutates:
`pkg['printed_boxes']`, `last_printed_box`, whether `save_history` has run,
and the toast shown to the operator. -/
structure ScanSession where
  printed : List ℕ
  lastPrinted : Option ℕ
  historySaved : Bool
  toast : Option String
deriving DecidableEq

/-- `process_scan` (src/app.py lines 517-554) as a transformer of the
session state.  `pages` is the merged-label document, `printer` the
selected printer, `t` the transport outcome of this scan. -/
def process_scan (scanRaw : String) (dfBoxes : List BoxRec) (pages : List α)
    (printer : Option String) (t : Transport) (s : ScanSession) : ScanSession :=
  let scan_val := pyStrip scanRaw
  if scan_val = "" then s
  else
    match resolve scan_val dfBoxes s.printed with
    | .noMatch => { s with toast := some ("Product not found: " ++ scan_val) }
    | .alreadyPrinted =>
        { s with toast := some ("All boxes for " ++ scan_val ++ " already printed!") }
    | .box target =>
        match printer with
        | none => { s with toast := some "Select a printer first (Top Right)!" }
        | some _ =>
            match extract_and_print_box pages ((target : ℤ) - 1) t with
            | (true, _) =>
                { s with
                  lastPrinted := some target
                  printed := s.printed ++ [target]
                  historySaved := true
                  toast := some ("Printed Box " ++ toString target) }
            | (false, msg) => { s with toast := some ("Print Failed: " ++ msg) }

/-- `trigger_reprint` (src/app.py lines 557-565) as a transformer of the
same session state: it calls `extract_and_print_box` directly for the
chosen box number and only updates `last_printed_box` and the toast. -/
def trigger_reprint (box_num : ℕ) (pages : List α) (printer : Option String)
    (t : Transport) (s : ScanSession) : ScanSession :=
  match printer with
  | none => { s with toast := some "Select Printer first (Top Right)" }
  | some _ =>
      match extract_and_print_box pages ((box_num : ℤ) - 1) t with
      | (true, _) =>
          { s with
            lastPrinted := some box_num
            toast := some ("Re-printed Box " ++ toString box_num) }
      | (false, msg) => { s with toast := some ("Reprint Failed: " ++ msg) }

/-- An output page of the compositing loop of `generate_merged_box_labels`
(src/app.py lines 195-257): the packing-slip layer (identified by the box
number it shows) and the carrier-label page merged under it, if any. -/
structure RenderedPage where
  slipBoxNum : ℕ
  carrier : Option ℕ
deriving DecidableEq

/-- The compositing loop of `generate_merged_box_labels`
(src/app.py lines 195-257): one output page per `box_data` entry; the
carrier page at index `i // 2` is merged when it exists
(`fk_page_idx < num_fk_pages`, line 243), otherwise the page is slip-only. -/
def composite (boxData : List LabelBox) (numFkPages : ℕ) : List RenderedPage :=
  boxData.enum.map
    (fun p => { slipBoxNum := p.2.num
                carrier := if p.1 / 2 < numFkPages then some (p.1 / 2) else none })

/-- An in-memory consignment (`pkg` / an element of
`st.session_state['consignments']`): only the fields the persistence
claims concern. -/
structure Consignment where
  id : String
  data : List LineItem
  printed_boxes : Option (List ℕ)
deriving DecidableEq

/-- A consignment as it appears in the JSON history file
(`data` converted to records by `save_history`). -/
structure StoredConsignment where
  id : String
  dataRecords : List LineItem
  printed_boxes : Option (List ℕ)
deriving DecidableEq

/-- The per-entry serialization of `save_history` (src/app.py lines
102-111): copy the record, turn the DataFrame into records; JSON encoding
of scalars (box numbers) is exact. -/
def serializeCons (c : Consignment) : StoredConsignment :=
  { id := c.id, dataRecords := c.data, printed_boxes := c.printed_boxes }

/-- The per-entry parse of `load_history` (src/app.py lines 94-97):
rebuild the DataFrame and default a missing `printed_boxes` key to `[]`. -/
def parseCons (s : StoredConsignment) : Consignment :=
  { id := s.id, data := s.dataRecords
    printed_boxes := some (s.printed_boxes.getD []) }

/-- The state of `consignment_history.json` on disk. -/
inductive HistoryFile where
  | absent : HistoryFile
  | corrupt : HistoryFile
  | stored (l : List StoredConsignment) : HistoryFile
deriving DecidableEq

/-- `load_history` (src/app.py lines 89-100): a missing file and a file
whose JSON fails to parse (the bare `except: return []`) both yield the
empty history. -/
def load_history : HistoryFile → List Consignment
  | .absent => []
  | .corrupt => []
  | .stored l => l.map parseCons

/-- `save_history` (src/app.py lines 102-111): overwrite the history file
with the serialized list. -/
def save_history (hist : List Consignment) : HistoryFile :=
  .stored (hist.map serializeCons)

/-- The `printedBoxes` set of a consignment as the rest of the program
reads it (`pkg.get('printed_boxes', [])`). -/
def printedSetOf (c : Consignment) : List ℕ := c.printed_boxes.getD []

/-- A PPCN cell of the merged upload as
`pd.to_numeric(..., errors='coerce')` classifies it: missing, numeric, or
a non-numeric string. -/
inductive PpcnCell where
  | na : PpcnCell
  | numval (q : ℚ) : PpcnCell
  | junk (s : String) : PpcnCell
deriving DecidableEq

/-- `pd.to_numeric(col, errors='coerce')`: missing and non-numeric cells
become NaN (`none`); numeric cells keep their value. -/
def to_numeric_coerce : PpcnCell → Option ℚ
  | .na => none
  | .numval q => some q
  | .junk _ => none

/-- src/app.py line 472:
`merged['PPCN'] = pd.to_numeric(merged['PPCN'], errors='coerce').fillna(1)`. -/
def reconcile_ppcn (c : PpcnCell) : ℚ := (to_numeric_coerce c).getD 1

/-! ### Concrete inputs used by the claim witnesses and counterexamples -/

/-- A one-row box table used to exercise `process_scan`. -/
def c1Box : BoxRec := { num := 1, sku := "SKU1", fsn := "FSN1", ean := "EAN1", qty := 5 }

/-- Two line items of one SKU each spanning two boxes, used to exercise
the scan matcher (boxes 1,2 carry SKU-A; boxes 3,4 carry SKU-B). -/
def c2Items : List LineItem :=
  [{ skuId := "SKU-A", productName := "Shoe A", editableQty := 10, ppcn := 5,
     editableBoxes := 2, fsn := "FSNA", ean := "1111" },
   { skuId := "SKU-B", productName := "Shoe B", editableQty := 6, ppcn := 3,
     editableBoxes := 2, fsn := "FSNB", ean := "2222" }]

/-- Two items with integral box counts, exercising the box expansion. -/
def c3Items : List LineItem :=
  [{ skuId := "SKU-C", productName := "Shoe C", editableQty := 10, ppcn := 5,
     editableBoxes := 2, fsn := "FSNC", ean := "3333" },
   { skuId := "SKU-D", productName := "Shoe D", editableQty := 3, ppcn := 3,
     editableBoxes := 1, fsn := "FSND", ean := "4444" }]

/-- A line item with a fractional PPCN of 2.5 (`unitsPerCarton` is only
required to be a positive number): the scan table truncates it. -/
def c3FracItem : LineItem :=
  { skuId := "SKU-R", productName := "Shoe R", editableQty := 5,
    ppcn := mkRat 5 2, editableBoxes := 1, fsn := "FSNR", ean := "4445" }

/-- Two rows of 2.5 editable boxes each: the fractional parts add up to a
whole extra box. -/
def c6FracItems : List LineItem :=
  [{ skuId := "SKU-E", productName := "Shoe E", editableQty := 5, ppcn := 2,
     editableBoxes := mkRat 5 2, fsn := "FSNE", ean := "5555" },
   { skuId := "SKU-F", productName := "Shoe F", editableQty := 5, ppcn := 2,
     editableBoxes := mkRat 5 2, fsn := "FSNF", ean := "6666" }]

/-- Items with integral editable-box counts for the count-agreement
witness. -/
def c6IntItems : List LineItem :=
  [{ skuId := "SKU-G", productName := "Shoe G", editableQty := 10, ppcn := 5,
     editableBoxes := 2, fsn := "FSNG", ean := "9990" },
   { skuId := "SKU-H", productName := "Shoe H", editableQty := 9, ppcn := 3,
     editableBoxes := 3, fsn := "FSNH", ean := "9991" }]

/-- A line item whose PPCN is the reconciliation of a numeric 0 cell:
`fillna(1)` does not touch it, so `unitsPerCarton = 0` reaches the
generators. -/
def c7ZeroItem : LineItem :=
  { skuId := "SKU-Z", productName := "Shoe Z", editableQty := 0,
    ppcn := reconcile_ppcn (.numval 0), editableBoxes := 1,
    fsn := "FSNZ", ean := "7777" }

/-- A line item with a positive integral PPCN. -/
def c7PosItem : LineItem :=
  { skuId := "SKU-P", productName := "Shoe P", editableQty := 10, ppcn := 5,
    editableBoxes := 2, fsn := "FSNP", ean := "8888" }

/-! ## General lemmas about the embedding -/

theorem pyInt_eq_floor {q : ℚ} (h : 0 ≤ q) : pyInt q = ⌊q⌋ := if_pos h

theorem pyInt_intCast (k : ℤ) : pyInt ((k : ℤ) : ℚ) = k := by
  unfold pyInt
  split
  · exact Int.floor_intCast k
  · exact Int.ceil_intCast k

theorem pyInt_nonneg {q : ℚ} (h : 0 ≤ q) : 0 ≤ pyInt q := by
  rw [pyInt_eq_floor h]
  exact Int.floor_nonneg.mpr h

theorem sortBySku_perm (items : List LineItem) : (sortBySku items).Perm items :=
  List.perm_insertionSort _ items

theorem expandWith_length (f : LineItem → ℕ → β) (l : List LineItem) (c : ℕ) :
    (expandWith f c l).length = (l.map boxCount).sum := by
  induction l generalizing c with
  | nil => rfl
  | cons it rest ih => simp [expandWith, ih]

theorem expandWith_map_num (f : LineItem → ℕ → β) (g : β → ℕ)
    (hg : ∀ it n, g (f it n) = n) (l : List LineItem) (c : ℕ) :
    (expandWith f c l).map g = List.range' c ((l.map boxCount).sum) := by
  induction l generalizing c with
  | nil => rfl
  | cons it rest ih =>
      have h1 : (List.map (fun j => f it (c + j)) (List.range (boxCount it))).map g =
          List.range' c (boxCount it) := by
        rw [List.map_map, List.range'_eq_map_range]
        exact List.map_congr_left (fun j _ => hg it (c + j))
      calc (expandWith f c (it :: rest)).map g
          = List.range' c (boxCount it) ++
              List.range' (c + boxCount it) ((rest.map boxCount).sum) := by
            simp only [expandWith, List.map_append, h1, ih]
        _ = List.range' c ((List.map boxCount (it :: rest)).sum) := by
            have h2 := List.range'_append c (boxCount it) ((rest.map boxCount).sum) 1
            simp only [one_mul, List.map_cons, List.sum_cons] at h2 ⊢
            rw [h2, Nat.add_comm]

theorem expandWith_mem (f : LineItem → ℕ → β) (l : List LineItem) (c : ℕ)
    (b : β) (hb : b ∈ expandWith f c l) : ∃ it ∈ l, ∃ n, b = f it n := by
  induction l generalizing c with
  | nil => simp [expandWith] at hb
  | cons it rest ih =>
      simp only [expandWith, List.mem_append, List.mem_map, List.mem_range] at hb
      rcases hb with ⟨j, _, rfl⟩ | hb
      · exact ⟨it, by simp, c + j, rfl⟩
      · obtain ⟨it', h1, n, h2⟩ := ih (c + boxCount it) hb
        exact ⟨it', by simp [h1], n, h2⟩

theorem scan_box_data_length (items : List LineItem) :
    (scan_box_data items).length = ((sortBySku items).map boxCount).sum :=
  expandWith_length scanBoxRow (sortBySku items) 1

theorem label_box_data_length (cid ch : String) (items : List LineItem) :
    (label_box_data cid ch items).length = ((sortBySku items).map boxCount).sum :=
  expandWith_length (labelRow cid ch (labelTotalField items)) (sortBySku items) 1

theorem confirm_consignment_csv_length (items : List LineItem) :
    (confirm_consignment_csv items).length = ((sortBySku items).map boxCount).sum :=
  expandWith_length csvRow (sortBySku items) 1

theorem scan_box_data_map_num (items : List LineItem) :
    (scan_box_data items).map BoxRec.num =
      List.range' 1 (((sortBySku items).map boxCount).sum) :=
  expandWith_map_num scanBoxRow BoxRec.num (fun _ _ => rfl) (sortBySku items) 1

/-- The scan page's box table carries strictly increasing box numbers
(they are the dense sequence `1..total`). -/
theorem scan_box_data_sorted (items : List LineItem) :
    (scan_box_data items).Pairwise (fun a b => a.num < b.num) := by
  have hp : ((scan_box_data items).map BoxRec.num).Pairwise (· < ·) := by
    rw [scan_box_data_map_num]
    exact List.pairwise_lt_range' 1 _
  exact List.pairwise_map.mp hp

/-- Characterization of the scan matcher on a box table with strictly
increasing box numbers: no-match, all-printed, and the
first-remaining-row-is-the-least-unprinted-match cases. -/
theorem resolve_characterization (scan : String) (boxes : List BoxRec)
    (printed : List ℕ) (hsorted : boxes.Pairwise (fun a b => a.num < b.num)) :
    ((∀ b ∈ boxes, rowMatches scan b = false) →
        resolve scan boxes printed = .noMatch) ∧
    (((∃ b ∈ boxes, rowMatches scan b = true) ∧
        (∀ b ∈ boxes, rowMatches scan b = true → b.num ∈ printed)) →
      resolve scan boxes printed = .alreadyPrinted) ∧
    (∀ b0 ∈ boxes, rowMatches scan b0 = true → b0.num ∉ printed →
      ∃ bs, resolve scan boxes printed = .box bs.num ∧ bs ∈ boxes ∧
        rowMatches scan bs = true ∧ bs.num ∉ printed ∧
        ∀ b' ∈ boxes, rowMatches scan b' = true → b'.num ∉ printed →
          bs.num ≤ b'.num) := by
  refine ⟨?_, ?_, ?_⟩
  · intro h
    have hm : boxes.filter (rowMatches scan) = [] :=
      List.filter_eq_nil_iff.mpr (fun a ha => by simp [h a ha])
    unfold resolve
    rw [hm]
    rfl
  · rintro ⟨⟨b, hbmem, hbm⟩, hall⟩
    cases hm : boxes.filter (rowMatches scan) with
    | nil =>
        exfalso
        have hbf : b ∈ boxes.filter (rowMatches scan) :=
          List.mem_filter.mpr ⟨hbmem, hbm⟩
        rw [hm] at hbf
        simp at hbf
    | cons m ms =>
        have hv : (m :: ms).filter (notPrinted printed) = [] := by
          refine List.filter_eq_nil_iff.mpr (fun a ha => ?_)
          have ha' : a ∈ boxes.filter (rowMatches scan) := hm ▸ ha
          have h2 := List.mem_filter.mp ha'
          have hin : a.num ∈ printed := hall a h2.1 h2.2
          simp [notPrinted, hin]
        unfold resolve
        rw [hm, hv]
        rfl
  · intro b0 hb0 hb0m hb0np
    have hb0f : b0 ∈ boxes.filter (rowMatches scan) :=
      List.mem_filter.mpr ⟨hb0, hb0m⟩
    cases hm : boxes.filter (rowMatches scan) with
    | nil => rw [hm] at hb0f; simp at hb0f
    | cons m ms =>
        have hb0v : b0 ∈ (m :: ms).filter (notPrinted printed) :=
          List.mem_filter.mpr ⟨hm ▸ hb0f, by simp [notPrinted, hb0np]⟩
        cases hv : (m :: ms).filter (notPrinted printed) with
        | nil => rw [hv] at hb0v; simp at hb0v
        | cons bs t =>
            have hsub : (m :: ms).Pairwise (fun a b => a.num < b.num) := by
              have h1 := List.Pairwise.sublist
                (List.filter_sublist (p := rowMatches scan) boxes) hsorted
              exact hm ▸ h1
            have hpair : (bs :: t).Pairwise (fun a b => a.num < b.num) := by
              have h2 := List.Pairwise.sublist
                (List.filter_sublist (p := notPrinted printed) (m :: ms)) hsub
              exact hv ▸ h2
            have hmem_of_valid : ∀ b' ∈ (m :: ms).filter (notPrinted printed),
                b' ∈ boxes ∧ rowMatches scan b' = true ∧ b'.num ∉ printed := by
              intro b' hb'
              have h3 := List.mem_filter.mp hb'
              have h4 : b' ∈ boxes.filter (rowMatches scan) := hm ▸ h3.1
              have h5 := List.mem_filter.mp h4
              refine ⟨h5.1, h5.2, ?_⟩
              have := h3.2
              simpa [notPrinted] using this
            have hbs := hmem_of_valid bs (by rw [hv]; simp)
            refine ⟨bs, ?_, hbs.1, hbs.2.1, hbs.2.2, ?_⟩
            · unfold resolve
              rw [hm, hv]
              rfl
            · intro b' hb' hb'm hb'np
              have hb'v : b' ∈ (m :: ms).filter (notPrinted printed) := by
                refine List.mem_filter.mpr ⟨?_, by simp [notPrinted, hb'np]⟩
                exact hm ▸ List.mem_filter.mpr ⟨hb', hb'm⟩
              rw [hv] at hb'v
              rcases List.mem_cons.mp hb'v with rfl | hb't
              · exact Nat.le_refl _
              · exact Nat.le_of_lt ((List.pairwise_cons.mp hpair).1 b' hb't)

/-! ## Claim theorems -/

/-- C1: the claim "if the transport reports failure printedBoxes is left
completely unchanged" fails on the code.  When `ShellExecute` raises,
`send_pdf_to_printer` reports the failure as the tuple `(False, str(e))`;
`extract_and_print_box` line 83 tests `success is False`, which the tuple
does not satisfy, so the scan is treated as a success: the box number is
appended to `printed_boxes` and a success toast is shown. -/
theorem c1_transport_exception_appends_box :
    send_pdf_to_printer (.exn "spooler error") = .retPair false "spooler error" ∧
    (process_scan "SKU1" [c1Box] ([0] : List ℕ) (some "HP") (.exn "spooler error")
        { printed := [], lastPrinted := none, historySaved := false,
          toast := none }).printed = [1] ∧
    (process_scan "SKU1" [c1Box] ([0] : List ℕ) (some "HP") (.exn "spooler error")
        { printed := [], lastPrinted := none, historySaved := false,
          toast := none }).toast = some "Printed Box 1" := by
  refine ⟨rfl, ?_, ?_⟩ <;> decide

/-- C5: the claim "for every boxNumber outside 1..pageCount (including 0
and negative values) extraction returns NotFound and never returns a page"
fails on the code.  The guard at line 65 only checks
`box_index >= len(reader.pages)`; `boxNumber = 0` gives `box_index = -1`
and Python's negative indexing returns the LAST page, reported as a
success.  (A `boxNumber` above the page count does return the NotFound
result, third conjunct.) -/
theorem c5_box_zero_returns_last_page :
    extract_page ([10, 20, 30] : List ℕ) (0 - 1) = some 30 ∧
    extract_and_print_box ([10, 20, 30] : List ℕ) (0 - 1) .ok =
      (true, "Sent to Printer") ∧
    extract_and_print_box ([10, 20, 30] : List ℕ) ((4 : ℤ) - 1) .ok =
      (false, "Box Index out of range") := by
  refine ⟨?_, ?_, ?_⟩ <;> decide

/-- C8: saving the consignment history and loading it back yields, for
every entry, exactly the `printedBoxes` set (and id) it had before the
save. -/
theorem c8_printed_boxes_roundtrip (hist : List Consignment) :
    (load_history (save_history hist)).map printedSetOf = hist.map printedSetOf ∧
    (load_history (save_history hist)).map (·.id) = hist.map (·.id) := by
  constructor <;>
    simp [load_history, save_history, List.map_map, printedSetOf, parseCons,
      serializeCons, Function.comp]

/-- C9: the manual reprint path never touches `printed_boxes` and never
persists the history, whether the transport succeeds or fails and whatever
box number the operator chose. -/
theorem c9_reprint_preserves_printed (box_num : ℕ) (pages : List α)
    (printer : Option String) (t : Transport) (s : ScanSession) :
    (trigger_reprint box_num pages printer t s).printed = s.printed ∧
    (trigger_reprint box_num pages printer t s).historySaved = s.historySaved := by
  unfold trigger_reprint
  cases printer with
  | none => exact ⟨rfl, rfl⟩
  | some p =>
      rcases h : extract_and_print_box pages ((box_num : ℤ) - 1) t with ⟨b, msg⟩
      cases b <;> exact ⟨rfl, rfl⟩

/-- C10: a history file with unparseable JSON loads as the empty history
(the bare `except: return []` at line 99), and a subsequent save overwrites
the file with that empty history. -/
theorem c10_corrupt_history_resets :
    load_history .corrupt = [] ∧
    save_history (load_history .corrupt) = .stored [] :=
  ⟨rfl, rfl⟩

/-- C2: on the box table the program builds (for any line-item table),
a non-empty trimmed scan token that matches no row resolves to NoMatch;
one that matches only already-printed boxes resolves to AlreadyPrinted;
and one that matches some unprinted box resolves to the lowest such box
number. -/
theorem c2_resolve_lowest_unprinted (items : List LineItem) (scan : String)
    (printed : List ℕ) (hscan : scan ≠ "" ∧ pyStrip scan = scan) :
    ((∀ b ∈ scan_box_data items, rowMatches scan b = false) →
        resolve scan (scan_box_data items) printed = .noMatch) ∧
    (((∃ b ∈ scan_box_data items, rowMatches scan b = true) ∧
        (∀ b ∈ scan_box_data items, rowMatches scan b = true → b.num ∈ printed)) →
      resolve scan (scan_box_data items) printed = .alreadyPrinted) ∧
    (∀ b0 ∈ scan_box_data items, rowMatches scan b0 = true → b0.num ∉ printed →
      ∃ bs, resolve scan (scan_box_data items) printed = .box bs.num ∧
        bs ∈ scan_box_data items ∧ rowMatches scan bs = true ∧
        bs.num ∉ printed ∧
        ∀ b' ∈ scan_box_data items, rowMatches scan b' = true →
          b'.num ∉ printed → bs.num ≤ b'.num) :=
  resolve_characterization scan (scan_box_data items) printed
    (scan_box_data_sorted items)

theorem c2_resolve_lowest_unprinted_witness :
    ("SKU-B" ≠ "" ∧ pyStrip "SKU-B" = "SKU-B") ∧
    (((∀ b ∈ scan_box_data c2Items, rowMatches "SKU-B" b = false) →
        resolve "SKU-B" (scan_box_data c2Items) [3] = .noMatch) ∧
    (((∃ b ∈ scan_box_data c2Items, rowMatches "SKU-B" b = true) ∧
        (∀ b ∈ scan_box_data c2Items, rowMatches "SKU-B" b = true → b.num ∈ [3])) →
      resolve "SKU-B" (scan_box_data c2Items) [3] = .alreadyPrinted) ∧
    (∀ b0 ∈ scan_box_data c2Items, rowMatches "SKU-B" b0 = true → b0.num ∉ [3] →
      ∃ bs, resolve "SKU-B" (scan_box_data c2Items) [3] = .box bs.num ∧
        bs ∈ scan_box_data c2Items ∧ rowMatches "SKU-B" bs = true ∧
        bs.num ∉ [3] ∧
        ∀ b' ∈ scan_box_data c2Items, rowMatches "SKU-B" b' = true →
          b'.num ∉ [3] → bs.num ≤ b'.num)) :=
  ⟨by decide, c2_resolve_lowest_unprinted c2Items "SKU-B" [3] (by decide)⟩

/-- C3 counterexample: the claim says every emitted box carries
`qty = unitsPerCarton`, but the scan table stores
`'Qty': int(row['PPCN'])` (src/app.py line 507).  An item with the
fractional PPCN 2.5 emits a box whose qty is 2, so the claim's qty clause
fails at this input. -/
theorem c3_qty_truncation_mismatch :
    c3FracItem.ppcn = mkRat 5 2 ∧
    (scan_box_data [c3FracItem]).map BoxRec.qty = [2] ∧
    ¬ (∀ b ∈ scan_box_data [c3FracItem], (b.qty : ℚ) = c3FracItem.ppcn) := by
  refine ⟨rfl, by decide, by decide⟩

/-- C3 (amended): for every line-item table with non-negative box counts,
the scan page's box expansion has length equal to the sum of the per-item
floors of `editableBoxes`, numbers its boxes densely `1..total`, and every
emitted box carries the owning item's sku/fsn/ean (with the pandas `.0`
artifact stripped) and `qty = int(unitsPerCarton)` — which equals
`unitsPerCarton` exactly when the item's PPCN is integral, and truncates
it otherwise (see `c3_qty_truncation_mismatch`). -/
theorem c3_expansion_dense_numbering (items : List LineItem)
    (hnn : ∀ it ∈ items, 0 ≤ it.editableBoxes) :
    (scan_box_data items).length =
      (items.map (fun it => (⌊it.editableBoxes⌋).toNat)).sum ∧
    (scan_box_data items).map BoxRec.num =
      List.range' 1 ((scan_box_data items).length) ∧
    (∀ b ∈ scan_box_data items, ∃ it ∈ items,
      b.sku = it.skuId ∧ b.fsn = it.fsn ∧ b.ean = stripDot0 it.ean ∧
        b.qty = pyInt it.ppcn ∧
        (it.ppcn = ((pyInt it.ppcn : ℤ) : ℚ) → (b.qty : ℚ) = it.ppcn)) := by
  have hlen : (scan_box_data items).length = ((sortBySku items).map boxCount).sum :=
    expandWith_length scanBoxRow (sortBySku items) 1
  have hperm : ((sortBySku items).map boxCount).Perm (items.map boxCount) :=
    (sortBySku_perm items).map boxCount
  have hbc : items.map boxCount =
      items.map (fun it => (⌊it.editableBoxes⌋).toNat) :=
    List.map_congr_left (fun it hit => by
      unfold boxCount
      rw [pyInt_eq_floor (hnn it hit)])
  refine ⟨?_, ?_, ?_⟩
  · rw [hlen, hperm.sum_eq, hbc]
  · rw [scan_box_data_map_num, hlen]
  · intro b hb
    obtain ⟨it, hitmem, n, rfl⟩ := expandWith_mem scanBoxRow (sortBySku items) 1 b hb
    have hit : it ∈ items := ((sortBySku_perm items).mem_iff).mp hitmem
    exact ⟨it, hit, rfl, rfl, rfl, rfl, fun h => h.symm⟩

theorem c3_expansion_dense_numbering_witness :
    (∀ it ∈ c3Items, 0 ≤ it.editableBoxes) ∧
    (scan_box_data c3Items).length =
      (c3Items.map (fun it => (⌊it.editableBoxes⌋).toNat)).sum :=
  ⟨by decide, (c3_expansion_dense_numbering c3Items (by decide)).1⟩

/-- C4: the compositing loop emits exactly one output page per box, in box
order, and the page at 0-based index `i` merges carrier page `i / 2` when
the carrier document has one, and is slip-only (never an error) when
`i / 2` is past the carrier document's page count. -/
theorem c4_composite_one_page_per_box (boxData : List LabelBox) (numFkPages : ℕ) :
    (composite boxData numFkPages).length = boxData.length ∧
    (composite boxData numFkPages).map RenderedPage.slipBoxNum =
      boxData.map LabelBox.num ∧
    (composite boxData numFkPages).map RenderedPage.carrier =
      (List.range boxData.length).map
        (fun i => if i / 2 < numFkPages then some (i / 2) else none) := by
  refine ⟨?_, ?_, ?_⟩
  · simp [composite]
  · unfold composite
    rw [List.enum_eq_zip_range, List.map_map]
    calc ((List.range boxData.length).zip boxData).map
          (fun p : ℕ × LabelBox => p.2.num)
        = (((List.range boxData.length).zip boxData).map Prod.snd).map
            LabelBox.num := by rw [List.map_map]; rfl
      _ = boxData.map LabelBox.num := by
          rw [List.map_snd_zip _ _ (by simp)]
  · unfold composite
    rw [List.enum_eq_zip_range, List.map_map]
    calc ((List.range boxData.length).zip boxData).map
          (fun p : ℕ × LabelBox =>
            if p.1 / 2 < numFkPages then some (p.1 / 2) else none)
        = (((List.range boxData.length).zip boxData).map Prod.fst).map
            (fun i => if i / 2 < numFkPages then some (i / 2) else none) := by
          rw [List.map_map]; rfl
      _ = (List.range boxData.length).map
            (fun i => if i / 2 < numFkPages then some (i / 2) else none) := by
          rw [List.map_fst_zip _ _ (by simp)]

/-- C6 counterexample: with two rows of 2.5 editable boxes each, every
box-expanding generator emits `int(2.5) + int(2.5) = 4` boxes, but the
`total` field stored on every label record is
`int(df['Editable Boxes'].sum()) = int(5.0) = 5` — the claim that all
generators compute the total identically fails on the `total` field. -/
theorem c6_total_field_mismatch :
    (scan_box_data c6FracItems).length = 4 ∧
    (label_box_data "CON1" "Flipkart" c6FracItems).length = 4 ∧
    labelTotalField c6FracItems = 5 ∧
    labelTotalField c6FracItems ≠
      ((label_box_data "CON1" "Flipkart" c6FracItems).length : ℤ) := by
  have hsum : ((sortBySku c6FracItems).map boxCount).sum = 4 := by
    rw [((sortBySku_perm c6FracItems).map boxCount).sum_eq]
    decide
  have h1 : (scan_box_data c6FracItems).length = 4 := by
    rw [scan_box_data_length, hsum]
  have h2 : (label_box_data "CON1" "Flipkart" c6FracItems).length = 4 := by
    rw [label_box_data_length, hsum]
  have h3 : labelTotalField c6FracItems = 5 := by
    have hs : (c6FracItems.map (fun it => it.editableBoxes)).sum = ((5 : ℤ) : ℚ) := by
      norm_num [c6FracItems, Rat.mkRat_eq_div]
    unfold labelTotalField
    rw [hs, pyInt_intCast]
  refine ⟨h1, h2, h3, ?_⟩
  rw [h2, h3]
  decide

/-- The per-item agreement between `int(row['Editable Boxes'])` and the
`boxCount` of the expansion, for non-negative box counts. -/
theorem pyInt_eq_boxCount {items : List LineItem}
    (hnn : ∀ it ∈ items, 0 ≤ it.editableBoxes) :
    ∀ it ∈ items, pyInt it.editableBoxes = ((boxCount it : ℕ) : ℤ) :=
  fun it hit => by
    unfold boxCount
    rw [Int.toNat_of_nonneg (pyInt_nonneg (hnn it hit))]

/-- C6 (amended): the confirmation CSV, the merged-label builder's emitted
page count, the consignment-data PDF total and the scan page's box table
all compute the same total, namely the sum of the per-row
`int(row['Editable Boxes'])`; but the `total` field stored on each label
record is `int(df['Editable Boxes'].sum())`, which only agrees when the
editable-box values are themselves integral (it can differ when the
fractional parts add up, see `c6_total_field_mismatch`). -/
theorem c6_box_counts_agree (cid ch : String) (items : List LineItem)
    (hnn : ∀ it ∈ items, 0 ≤ it.editableBoxes) :
    (confirm_consignment_csv items).length = (scan_box_data items).length ∧
    (label_box_data cid ch items).length = (scan_box_data items).length ∧
    pdfTotalBoxes items = ((scan_box_data items).length : ℤ) ∧
    ((∀ it ∈ items, it.editableBoxes = ((pyInt it.editableBoxes : ℤ) : ℚ)) →
      labelTotalField items = ((scan_box_data items).length : ℤ)) := by
  have hscan := scan_box_data_length items
  have hpos := pyInt_eq_boxCount hnn
  refine ⟨?_, ?_, ?_, ?_⟩
  · rw [confirm_consignment_csv_length, hscan]
  · rw [label_box_data_length, hscan]
  · unfold pdfTotalBoxes
    have hm1 : (sortBySku items).map (fun it => pyInt it.editableBoxes) =
        (sortBySku items).map (fun it => ((boxCount it : ℕ) : ℤ)) :=
      List.map_congr_left
        (fun it hit => hpos it ((sortBySku_perm items).mem_iff.mp hit))
    rw [hm1, hscan, Nat.cast_list_sum, List.map_map]
    rfl
  · intro hint
    unfold labelTotalField
    have hm2 : items.map (fun it => it.editableBoxes) =
        items.map (fun it => ((pyInt it.editableBoxes : ℤ) : ℚ)) :=
      List.map_congr_left hint
    have hcast : (items.map (fun it => ((pyInt it.editableBoxes : ℤ) : ℚ))).sum =
        (((items.map (fun it => pyInt it.editableBoxes)).sum : ℤ) : ℚ) := by
      rw [Int.cast_list_sum, List.map_map]
      rfl
    rw [hm2, hcast, pyInt_intCast]
    have hm3 : items.map (fun it => pyInt it.editableBoxes) =
        items.map (fun it => ((boxCount it : ℕ) : ℤ)) :=
      List.map_congr_left hpos
    rw [hm3, hscan, Nat.cast_list_sum, List.map_map]
    exact (((sortBySku_perm items).map
      (fun it => ((boxCount it : ℕ) : ℤ))).sum_eq).symm

theorem c6_box_counts_agree_witness :
    (∀ it ∈ c6IntItems, 0 ≤ it.editableBoxes) ∧
    ((confirm_consignment_csv c6IntItems).length =
        (scan_box_data c6IntItems).length ∧
      (label_box_data "CON2" "Amazon" c6IntItems).length =
        (scan_box_data c6IntItems).length ∧
      pdfTotalBoxes c6IntItems = ((scan_box_data c6IntItems).length : ℤ) ∧
      ((∀ it ∈ c6IntItems, it.editableBoxes = ((pyInt it.editableBoxes : ℤ) : ℚ)) →
        labelTotalField c6IntItems = ((scan_box_data c6IntItems).length : ℤ))) :=
  ⟨by decide, c6_box_counts_agree "CON2" "Amazon" c6IntItems (by decide)⟩

/-- C7 counterexample: a numeric PPCN of 0 is not coerced to 1 at
reconciliation (`fillna(1)` only replaces NaN), so an item with
`unitsPerCarton = 0` flows into the generators — e.g. the scan table's
box row shows `Qty = 0` — refuting "unitsPerCarton > 0 holds for every
item every generator later consumes". -/
theorem c7_ppcn_zero_passthrough :
    reconcile_ppcn (.numval 0) = 0 ∧
    ¬ 0 < reconcile_ppcn (.numval 0) ∧
    (scan_box_data [c7ZeroItem]).map BoxRec.qty = [0] := by
  refine ⟨rfl, by decide, by decide⟩

/-- C7 (amended): missing and non-numeric PPCN cells are coerced to 1 by
reconciliation; numeric cells (including 0 and negative values) pass
through unchanged, so `unitsPerCarton > 0` is only guaranteed when the
master value is positive.  The confirmation-CSV generator separately
clamps a non-positive PPCN to 1 at consumption, and a PPCN ≥ 1 always
yields a CSV quantity ≥ 1. -/
theorem c7_ppcn_coercion (c : PpcnCell) :
    (to_numeric_coerce c = none → reconcile_ppcn c = 1) ∧
    (∀ q : ℚ, c = .numval q → reconcile_ppcn c = q) ∧
    (∀ it : LineItem, it.ppcn ≤ 0 → csvPpcn it = 1) ∧
    (∀ it : LineItem, 1 ≤ it.ppcn → 1 ≤ csvPpcn it) := by
  refine ⟨?_, ?_, ?_, ?_⟩
  · intro h
    unfold reconcile_ppcn
    rw [h]
    rfl
  · rintro q rfl
    rfl
  · intro it h
    unfold csvPpcn
    rw [if_neg (not_lt.mpr h)]
  · intro it h
    unfold csvPpcn
    rw [if_pos (lt_of_lt_of_le one_pos h), pyInt_eq_floor (le_trans zero_le_one h)]
    exact Int.le_floor.mpr (by exact_mod_cast h)

theorem c7_ppcn_coercion_witness :
    reconcile_ppcn .na = 1 ∧ csvPpcn c7ZeroItem = 1 ∧ 1 ≤ csvPpcn c7PosItem :=
  ⟨(c7_ppcn_coercion .na).1 rfl,
   (c7_ppcn_coercion .na).2.2.1 c7ZeroItem (by decide),
   (c7_ppcn_coercion .na).2.2.2 c7PosItem (by decide)⟩

end HikeWarehouse
